import Mathlib

/-!
Verification of the message-ingestion and context-lifecycle pipeline of the
Mattermost/Ollama chat bot (`src/bot.py`).

The embedding below translates the pipeline's pure logic into Lean:

* timestamps are integers (milliseconds, as in the source);
* the Python dictionaries `last_processed_timestamp`, `last_poll_time` and
  `user_context` become association lists with dictionary semantics
  (`list_find` / `list_set`);
* the poller body (`message_poller`, lines 171-231) becomes `poll_channel` /
  `poll_cycle`, with the external fetch modelled as a function returning
  `Option` (`none` models a raised exception, which in the source is caught
  only by the `except` wrapping the whole per-cycle channel loop);
* the worker body (`message_processor`, lines 94-142) becomes
  `message_processor_step`, with the Ollama HTTP call modelled by an
  `OllamaApi` oracle whose outcome is success, a non-200 status, or a
  transport failure (the latter two are handled inside
  `get_ollama_response`, as in the source).
-/

/-- Dictionary lookup on an association list (Python `d[k]` / `k in d`). -/
def list_find {α : Type} (m : List (String × α)) (k : String) : Option α :=
  match m with
  | [] => none
  | (k2, v) :: rest => if k2 = k then some v else list_find rest k

/-- Dictionary assignment on an association list (Python `d[k] = v`). -/
def list_set {α : Type} (m : List (String × α)) (k : String) (v : α) :
    List (String × α) :=
  match m with
  | [] => [(k, v)]
  | (k2, v2) :: rest =>
      if k2 = k then (k2, v) :: rest else (k2, v2) :: list_set rest k v

/-- Per-channel timestamp map (`last_processed_timestamp`, `last_poll_time`). -/
abbrev TimeMap := List (String × Int)

/-- Per-user context store: `user_id` maps to `(context, last_interaction_time)`
(the source's `user_context` dictionary). -/
abbrev ContextMap := List (String × (String × Int))

/-- `ENABLE_CONTEXT_TRACKING = True` (bot.py line 19): context tracking is
hard-enabled in the source. -/
def ENABLE_CONTEXT_TRACKING : Bool := true

/-- `CONTEXT_EXPIRATION_DURATION = timedelta(minutes=4)` (bot.py line 49),
in milliseconds. -/
def CONTEXT_EXPIRATION_DURATION : Int := 4 * 60 * 1000

/-- Boolean test that `needle` is an initial segment of `haystack`
(character-level helper for the Python `in` substring test). -/
def leads_chars : List Char → List Char → Bool
  | [], _ => true
  | _ :: _, [] => false
  | a :: as, b :: bs => (a = b) && leads_chars as bs

/-- Boolean substring test: some suffix of `haystack` starts with `needle`
(the Python expression `needle in haystack` on strings). -/
def has_sub_chars : List Char → List Char → Bool
  | [], needle => leads_chars needle []
  | a :: rest, needle => leads_chars needle (a :: rest) || has_sub_chars rest needle

/-- `bot_is_mentioned` (bot.py lines 150-152): the literal `"@" + bot_username`
occurs in the message text. -/
def bot_is_mentioned (message : String) (bot_username : String) : Bool :=
  has_sub_chars message.data ("@" ++ bot_username).data

/-- A fetched Mattermost post, as consumed by the poller: author id, message
text and creation timestamp (`post["user_id"]`, `post["message"]`,
`post["create_at"]`). -/
structure Post where
  user_id : String
  message : String
  create_at : Int
deriving DecidableEq, Repr

/-- A channel the bot belongs to: its id and its type string (`"D"` marks a
direct-message channel). -/
structure Channel where
  id : String
  type : String
deriving DecidableEq, Repr

/-- A queued work item `(channel_id, message_text, sender_username,
message_time)` exactly as put on `message_queue` (bot.py line 220). -/
abbrev QueueEvent := String × String × String × Int

/-- The dedup test of bot.py line 201: the channel has a
`last_processed_timestamp` entry and that entry is `≥` the message time. -/
def dedup_blocks (dedup : TimeMap) (channel_id : String) (message_time : Int) :
    Bool :=
  match list_find dedup channel_id with
  | some d => message_time ≤ d
  | none => false

/-- The per-post decision of the poller's inner loop (bot.py lines 186-220):
skip the bot's own posts, posts older than boot, posts at or below the dedup
cursor, and unmentioned posts in non-DM channels; otherwise build the queue
tuple (the `username_of` oracle stands for `driver.users.get_user`). -/
def enqueue_decision (bot_user_id bot_username : String)
    (username_of : String → String) (boot_time : Int) (dedup : TimeMap)
    (channel : Channel) (post : Post) : Option QueueEvent :=
  if post.user_id ≠ bot_user_id then
    if post.create_at < boot_time then none
    else if dedup_blocks dedup channel.id post.create_at then none
    else if channel.type ≠ "D" ∧ bot_is_mentioned post.message bot_username = false
    then none
    else some (channel.id, post.message, username_of post.user_id, post.create_at)
  else none

/-- One channel's filter-and-enqueue pass: the source iterates
`reversed(posts["order"])` (bot.py line 186), so the fetched list — given in
the gateway's returned order — is reversed before the per-post decision, and
the survivors are enqueued in that reversed order. -/
def process_posts (bot_user_id bot_username : String)
    (username_of : String → String) (boot_time : Int) (dedup : TimeMap)
    (channel : Channel) (fetched : List Post) : List QueueEvent :=
  fetched.reverse.filterMap
    (enqueue_decision bot_user_id bot_username username_of boot_time dedup channel)

/-- The poller's mutable state: the dedup cursors it reads, the poll cursors
it owns, and the FIFO queue it appends to. -/
structure PollerState where
  last_processed_timestamp : TimeMap
  last_poll_time : TimeMap
  message_queue : List QueueEvent
deriving DecidableEq, Repr

/-- One channel's poll step (bot.py lines 176-225): initialize the poll cursor
to `boot_time` on first sight, fetch since the cursor, filter and enqueue, and
advance the cursor to `now`. `fetch` returns `none` to model a raised
exception; in that case the already-performed cursor initialization persists,
nothing is enqueued, the cursor is not advanced, and the returned flag is
`false` so that the cycle aborts (the source's `except` is outside the
per-channel loop). -/
def poll_channel (bot_user_id bot_username : String)
    (username_of : String → String) (boot_time : Int)
    (fetch : String → Int → Option (List Post)) (now : Int)
    (s : PollerState) (channel : Channel) : PollerState × Bool :=
  let lp :=
    match list_find s.last_poll_time channel.id with
    | some _ => s.last_poll_time
    | none => list_set s.last_poll_time channel.id boot_time
  let since := (list_find lp channel.id).getD boot_time
  match fetch channel.id since with
  | none => ({ s with last_poll_time := lp }, false)
  | some posts =>
      let events := process_posts bot_user_id bot_username username_of boot_time
        s.last_processed_timestamp channel posts
      ({ s with
          last_poll_time := list_set lp channel.id now,
          message_queue := s.message_queue ++ events }, true)

/-- One full poll cycle over the channel list (bot.py lines 171-228): channels
are visited in order; a raised fetch exception is caught by the `except` that
wraps the whole loop, so the remaining channels of the cycle are skipped and
the poller survives into the next cycle. -/
def poll_cycle (bot_user_id bot_username : String)
    (username_of : String → String) (boot_time : Int)
    (fetch : String → Int → Option (List Post)) (now : Int) :
    PollerState → List Channel → PollerState
  | s, [] => s
  | s, c :: rest =>
      match poll_channel bot_user_id bot_username username_of boot_time fetch now
        s c with
      | (s2, true) =>
          poll_cycle bot_user_id bot_username username_of boot_time fetch now
            s2 rest
      | (s2, false) => s2

/-- Outcome of one HTTP call to the Ollama API: a 200 response with its parsed
`response` and `context` fields, a non-200 status code, or a raised transport
exception. -/
inductive OllamaOutcome where
  | ok (response : String) (context : String)
  | status (code : Nat)
  | failure
deriving DecidableEq, Repr

/-- Whether an outcome is a failed call: a non-200 status or a transport
exception (everything except a 200 response). -/
def OllamaOutcome.failed : OllamaOutcome → Bool
  | .ok _ _ => false
  | .status _ => true
  | .failure => true

/-- Oracle for the Ollama endpoint: maps the prompt and the optional context
actually sent to the call's outcome. -/
abbrev OllamaApi := String → Option String → OllamaOutcome

/-- `get_ollama_response` (bot.py lines 59-91): the context is included in the
request only when tracking is enabled and it is truthy (non-empty); a non-200
status yields an error string and an empty context, and a transport exception
yields a fixed error string and an empty context. -/
def get_ollama_response (api : OllamaApi) (prompt : String)
    (context : Option String) : String × String :=
  let sent : Option String :=
    match context with
    | some c => if ENABLE_CONTEXT_TRACKING = true ∧ c ≠ "" then some c else none
    | none => none
  match api prompt sent with
  | .ok response ctx => (response, ctx)
  | .status code => ("Error: Ollama returned status code " ++ toString code, "")
  | .failure => ("Error: Unable to get a response from Ollama.", "")

/-- The context-resolution phase of the worker (bot.py lines 104-113): create
an empty entry on first sight of the user, then read the stored pair and blank
the returned context when tracking is on and the entry is older than the
expiration window. Returns the resolved context together with the (possibly
extended) store. -/
def resolve (user_context : ContextMap) (user_id : String)
    (current_time : Int) : String × ContextMap :=
  let uc :=
    match list_find user_context user_id with
    | some _ => user_context
    | none => list_set user_context user_id ("", current_time)
  match list_find uc user_id with
  | some (context, last_interaction_time) =>
      (if ENABLE_CONTEXT_TRACKING = true ∧
          current_time - last_interaction_time > CONTEXT_EXPIRATION_DURATION
       then "" else context, uc)
  | none => ("", uc)

/-- The worker's mutable state: the context store and dedup cursors it writes,
plus the list of `(channel_id, message)` posts it has created, in order. -/
structure WorkerState where
  user_context : ContextMap
  last_processed_timestamp : TimeMap
  posted : List (String × String)
deriving DecidableEq, Repr

/-- One successful iteration of `message_processor` (bot.py lines 98-136) on a
dequeued event: resolve the sender's context, call Ollama (passing the context
only when tracking is on and it is non-empty), store the returned context with
the current time when tracking is on, post the response to the channel, and
assign the channel's dedup cursor to the event's timestamp. -/
def message_processor_step (api : OllamaApi) (s : WorkerState)
    (ev : QueueEvent) (current_time : Int) : WorkerState :=
  let (channel_id, message_text, sender_username, message_time) := ev
  let user_id := sender_username
  let r := resolve s.user_context user_id current_time
  let context := r.1
  let uc := r.2
  let o :=
    if ENABLE_CONTEXT_TRACKING = true ∧ context ≠ "" then
      get_ollama_response api message_text (some context)
    else
      get_ollama_response api message_text none
  let bot_response := o.1
  let new_context := o.2
  let uc2 :=
    if ENABLE_CONTEXT_TRACKING = true then
      list_set uc user_id (new_context, current_time)
    else uc
  { user_context := uc2,
    last_processed_timestamp :=
      list_set s.last_processed_timestamp channel_id message_time,
    posted := s.posted ++ [(channel_id, bot_response)] }

/-! Helper lemmas about the association-list dictionaries. -/

/-- Lookup after assignment at the same key returns the assigned value. -/
theorem list_find_set_self {α : Type} (m : List (String × α)) (k : String)
    (v : α) : list_find (list_set m k v) k = some v := by
  induction m with
  | nil => simp [list_set, list_find]
  | cons p rest ih =>
      obtain ⟨k2, v2⟩ := p
      by_cases hk : k2 = k
      · simp [list_set, list_find, hk]
      · simp [list_set, list_find, hk, ih]

/-- Lookup after assignment at a different key is unchanged. -/
theorem list_find_set_other {α : Type} (m : List (String × α)) (k k2 : String)
    (v : α) (h : k ≠ k2) : list_find (list_set m k v) k2 = list_find m k2 := by
  induction m with
  | nil => simp [list_set, list_find, h]
  | cons p rest ih =>
      obtain ⟨k3, v3⟩ := p
      by_cases hk : k3 = k
      · subst hk
        simp [list_set, list_find, h]
      · simp [list_set, list_find, hk, ih]

/-! Helper lemmas about the per-post enqueue decision. -/

/-- Inversion of a positive enqueue decision: the produced event is the queue
tuple of the post, the author is not the bot, the post is not older than boot,
the dedup cursor does not block it, and in a non-DM channel the bot is
mentioned. -/
theorem enqueue_decision_eq_some {bot_user_id bot_username : String}
    {username_of : String → String} {boot_time : Int} {dedup : TimeMap}
    {channel : Channel} {post : Post} {e : QueueEvent}
    (h : enqueue_decision bot_user_id bot_username username_of boot_time dedup
      channel post = some e) :
    e = (channel.id, post.message, username_of post.user_id, post.create_at) ∧
    post.user_id ≠ bot_user_id ∧ boot_time ≤ post.create_at ∧
    dedup_blocks dedup channel.id post.create_at = false ∧
    (channel.type ≠ "D" → bot_is_mentioned post.message bot_username = true) := by
  unfold enqueue_decision at h
  split_ifs at h with h1 h2 h3 h4
  injection h with h5
  subst h5
  refine ⟨rfl, h1, by omega, ?_, ?_⟩
  · exact Bool.not_eq_true _ ▸ eq_false_of_ne_true h3
  · intro hD
    by_contra hm
    exact h4 ⟨hD, Bool.not_eq_true _ ▸ hm⟩

/-- Membership in a channel's enqueue output comes from a post of the fetched
list whose decision was positive. -/
theorem mem_process_posts {bot_user_id bot_username : String}
    {username_of : String → String} {boot_time : Int} {dedup : TimeMap}
    {channel : Channel} {fetched : List Post} {e : QueueEvent}
    (h : e ∈ process_posts bot_user_id bot_username username_of boot_time dedup
      channel fetched) :
    ∃ post ∈ fetched,
      enqueue_decision bot_user_id bot_username username_of boot_time dedup
        channel post = some e := by
  obtain ⟨post, hmem, hdec⟩ := List.mem_filterMap.mp h
  exact ⟨post, List.mem_reverse.mp hmem, hdec⟩

/-! Helper lemmas about context resolution and the Ollama wrapper. -/

/-- Resolving a user that already has an entry leaves the store untouched. -/
theorem resolve_snd_of_find {uc : ContextMap} {u : String} {t : Int}
    {e : String × Int} (h : list_find uc u = some e) : (resolve uc u t).2 = uc := by
  obtain ⟨c0, t0⟩ := e
  simp [resolve, h]

/-- Resolving an unseen user extends the store with an empty entry stamped at
the resolution time. -/
theorem resolve_snd_of_none {uc : ContextMap} {u : String} {t : Int}
    (h : list_find uc u = none) :
    (resolve uc u t).2 = list_set uc u ("", t) := by
  simp [resolve, h, list_find_set_self]

/-- After a resolve, the user always has an entry in the store. -/
theorem resolve_find_some (uc : ContextMap) (u : String) (t : Int) :
    ∃ e, list_find (resolve uc u t).2 u = some e := by
  cases hx : list_find uc u with
  | some e => exact ⟨e, by rw [resolve_snd_of_find hx]; exact hx⟩
  | none =>
      exact ⟨("", t), by rw [resolve_snd_of_none hx]; exact list_find_set_self uc u _⟩

/-- Repeated resolves leave a store that already holds the user unchanged. -/
theorem resolve_foldl_fixed (u : String) (ts : List Int) :
    ∀ S : ContextMap, (∃ e, list_find S u = some e) →
      List.foldl (fun m t2 => (resolve m u t2).2) S ts = S := by
  induction ts with
  | nil => intro S _; rfl
  | cons t2 rest ih =>
      intro S hS
      obtain ⟨e, he⟩ := hS
      simp only [List.foldl_cons]
      rw [resolve_snd_of_find he]
      exact ih S ⟨e, he⟩

/-- When every call to the API fails, `get_ollama_response` returns an empty
context token, whatever context was offered. -/
theorem get_ollama_response_ctx_of_failed (api : OllamaApi) (p : String)
    (c : Option String) (h : ∀ q d, OllamaOutcome.failed (api q d) = true) :
    (get_ollama_response api p c).2 = "" := by
  have key : ∀ d : Option String,
      (match api p d with
        | OllamaOutcome.ok response ctx => (response, ctx)
        | OllamaOutcome.status code =>
            ("Error: Ollama returned status code " ++ toString code, "")
        | OllamaOutcome.failure =>
            ("Error: Unable to get a response from Ollama.", "")).2 = "" := by
    intro d
    have hf := h p d
    cases hx : api p d with
    | ok response ctx => rw [hx] at hf; simp [OllamaOutcome.failed] at hf
    | status code => rfl
    | failure => rfl
  exact key _

/-! Claim theorems. -/

/-- C7: for every user with a stored ContextEntry and every time `t`,
resolving at `t` yields the empty context exactly when `t` minus the entry's
last-interaction instant exceeds the 4-minute expiration window, and yields
the stored context unmodified otherwise. -/
theorem resolve_expiry (uc : ContextMap) (u : String) (t : Int)
    (context : String) (last : Int)
    (h : list_find uc u = some (context, last)) :
    (resolve uc u t).1 =
      if t - last > CONTEXT_EXPIRATION_DURATION then "" else context := by
  simp [resolve, h, ENABLE_CONTEXT_TRACKING]

/-- Witness for C7: with a stored entry last touched at time 0, resolving at
t = 300000 ms (beyond the 240000 ms window) yields the empty context, and
resolving at t = 200000 ms yields the stored context. -/
theorem resolve_expiry_witness :
    (resolve [("alice", ("history", (0 : Int)))] "alice" 300000).1 = "" ∧
    (resolve [("alice", ("history", (0 : Int)))] "alice" 200000).1 = "history" := by
  constructor
  · rw [resolve_expiry [("alice", ("history", (0 : Int)))] "alice" 300000
      "history" 0 (by decide)]
    decide
  · rw [resolve_expiry [("alice", ("history", (0 : Int)))] "alice" 200000
      "history" 0 (by decide)]
    decide

/-- C8: resolve does not mutate stored state — any number of repeated resolves
after a first one leave the store exactly as it was after the first, and for a
user that already has a stored entry a resolve leaves the store untouched (an
expired entry is only overwritten by a later update, never by resolve). -/
theorem resolve_idempotent (uc : ContextMap) (u : String) (t : Int)
    (ts : List Int) :
    List.foldl (fun m t2 => (resolve m u t2).2) (resolve uc u t).2 ts =
      (resolve uc u t).2 ∧
    ∀ e, list_find uc u = some e → (resolve uc u t).2 = uc :=
  ⟨resolve_foldl_fixed u ts _ (resolve_find_some uc u t),
   fun _ h => resolve_snd_of_find h⟩

/-- Witness for C8: on a concrete store holding an expired entry for "alice",
three further resolves change nothing, and the first resolve already left the
store untouched. -/
theorem resolve_idempotent_witness :
    List.foldl (fun m t2 => (resolve m "alice" t2).2)
        (resolve [("alice", ("history", (0 : Int)))] "alice" 500000).2
        [600000, 700000, 800000] =
      (resolve [("alice", ("history", (0 : Int)))] "alice" 500000).2 ∧
    (resolve [("alice", ("history", (0 : Int)))] "alice" 500000).2 =
      [("alice", ("history", (0 : Int)))] :=
  ⟨(resolve_idempotent [("alice", ("history", (0 : Int)))] "alice" 500000
      [600000, 700000, 800000]).1,
   (resolve_idempotent [("alice", ("history", (0 : Int)))] "alice" 500000
      [600000, 700000, 800000]).2 ("history", 0) (by decide)⟩

/-- C1 counterexample: with a prior dedup cursor of 10 for channel "ch",
successfully processing a dequeued event timestamped 5 sets the cursor to 5 —
smaller than the prior value 10 and different from max 10 5 — refuting the
claim that the cursor becomes the maximum and never shrinks. -/
theorem dedup_cursor_decreases_cx :
    list_find (message_processor_step (fun _ _ => OllamaOutcome.ok "r" "c")
        { user_context := [],
          last_processed_timestamp := [("ch", (10 : Int))],
          posted := [] }
        ("ch", "hi", "alice", (5 : Int)) 1000).last_processed_timestamp "ch" =
      some (5 : Int) ∧
    (5 : Int) < 10 ∧ max (10 : Int) (5 : Int) = 10 := by
  refine ⟨?_, by decide, by decide⟩
  decide

/-- C1 (amended): after the worker successfully posts a reply for a dequeued
event, the channel's dedup cursor is assigned exactly the event's timestamp,
whatever its previous value — so it can shrink when the event's timestamp is
below the prior cursor. -/
theorem dedup_cursor_assignment (api : OllamaApi) (s : WorkerState)
    (channel_id message_text sender : String) (message_time current_time : Int) :
    list_find
      ((message_processor_step api s
        (channel_id, message_text, sender, message_time)
        current_time).last_processed_timestamp)
      channel_id = some message_time := by
  simp [message_processor_step, list_find_set_self]

/-- C10: when every inference call fails (non-200 status or transport
exception), the worker still stores the returned empty context token as the
user's new context, stamped with the current time, and posts exactly one
message (the error text) to the event's channel — erasing whatever context the
user had accumulated, even if it had not expired. -/
theorem failed_inference_erases_context (api : OllamaApi) (s : WorkerState)
    (channel_id message_text sender : String) (message_time current_time : Int)
    (h : ∀ q d, OllamaOutcome.failed (api q d) = true) :
    list_find
      ((message_processor_step api s
        (channel_id, message_text, sender, message_time)
        current_time).user_context)
      sender = some ("", current_time) ∧
    ∃ msg, (message_processor_step api s
        (channel_id, message_text, sender, message_time) current_time).posted =
      s.posted ++ [(channel_id, msg)] := by
  have h1 : ∀ c, (get_ollama_response api message_text c).2 = "" :=
    fun c => get_ollama_response_ctx_of_failed api message_text c h
  constructor
  · simp [message_processor_step, ENABLE_CONTEXT_TRACKING, apply_ite Prod.snd,
      h1, list_find_set_self]
  · exact ⟨_, rfl⟩

/-- Witness for C10: with a stored fresh context "history" for "alice" and an
API that always returns status 500, processing an event leaves "alice" with
the empty context stamped at the processing time, and one message is posted. -/
theorem failed_inference_erases_context_witness :
    list_find
      ((message_processor_step (fun _ _ => OllamaOutcome.status 500)
        { user_context := [("alice", ("history", (0 : Int)))],
          last_processed_timestamp := [],
          posted := [] }
        ("ch", "hi", "alice", (5 : Int)) 1000).user_context) "alice" =
      some ("", (1000 : Int)) ∧
    ∃ msg, (message_processor_step (fun _ _ => OllamaOutcome.status 500)
        { user_context := [("alice", ("history", (0 : Int)))],
          last_processed_timestamp := [],
          posted := [] }
        ("ch", "hi", "alice", (5 : Int)) 1000).posted = [] ++ [("ch", msg)] :=
  failed_inference_erases_context (fun _ _ => OllamaOutcome.status 500)
    { user_context := [("alice", ("history", (0 : Int)))],
      last_processed_timestamp := [], posted := [] }
    "ch" "hi" "alice" 5 1000 (fun _ _ => rfl)

/-- C4: no event whose timestamp is strictly below the boot marker is ever
enqueued — every event produced by a channel's filter-and-enqueue pass has a
timestamp at least `boot_time`, for every channel history. -/
theorem no_pre_boot_enqueue (bot_user_id bot_username : String)
    (username_of : String → String) (boot_time : Int) (dedup : TimeMap)
    (channel : Channel) (fetched : List Post) (e : QueueEvent)
    (h : e ∈ process_posts bot_user_id bot_username username_of boot_time dedup
      channel fetched) :
    ¬ e.2.2.2 < boot_time := by
  obtain ⟨post, _, hdec⟩ := mem_process_posts h
  obtain ⟨he, _, hb, _, _⟩ := enqueue_decision_eq_some hdec
  subst he
  show ¬ post.create_at < boot_time
  omega

/-- Witness for C4: a concrete DM post timestamped 7 with boot marker 3 is
enqueued, and its timestamp is not below the boot marker. -/
theorem no_pre_boot_enqueue_witness :
    ("c", "hi", "alice", (7 : Int)) ∈
      process_posts "bot" "bot" (fun u => u) 3 [] ⟨"c", "D"⟩
        [⟨"alice", "hi", 7⟩] ∧
    ¬ ("c", "hi", "alice", (7 : Int)).2.2.2 < 3 :=
  ⟨by decide,
   no_pre_boot_enqueue "bot" "bot" (fun u => u) 3 [] ⟨"c", "D"⟩
     [⟨"alice", "hi", 7⟩] ("c", "hi", "alice", (7 : Int)) (by decide)⟩

/-- C5: when the channel has a dedup-cursor entry `d` at enqueue-decision
time, every event the pass enqueues for it has a timestamp strictly above `d`
— any fetched post with timestamp at most `d` is discarded. -/
theorem no_dedup_reenqueue (bot_user_id bot_username : String)
    (username_of : String → String) (boot_time : Int) (dedup : TimeMap)
    (channel : Channel) (fetched : List Post) (d : Int)
    (hd : list_find dedup channel.id = some d) (e : QueueEvent)
    (h : e ∈ process_posts bot_user_id bot_username username_of boot_time dedup
      channel fetched) :
    d < e.2.2.2 := by
  obtain ⟨post, _, hdec⟩ := mem_process_posts h
  obtain ⟨he, _, _, hblock, _⟩ := enqueue_decision_eq_some hdec
  subst he
  show d < post.create_at
  unfold dedup_blocks at hblock
  rw [hd] at hblock
  simp only [decide_eq_false_iff_not] at hblock
  omega

/-- Witness for C5: with dedup cursor 10 on channel "c", a concrete enqueued
event timestamped 11 is strictly above the cursor. -/
theorem no_dedup_reenqueue_witness :
    list_find [("c", (10 : Int))] "c" = some (10 : Int) ∧
    ("c", "hi", "alice", (11 : Int)) ∈
      process_posts "bot" "bot" (fun u => u) 3 [("c", (10 : Int))] ⟨"c", "D"⟩
        [⟨"alice", "hi", 11⟩] ∧
    (10 : Int) < ("c", "hi", "alice", (11 : Int)).2.2.2 :=
  ⟨by decide, by decide,
   no_dedup_reenqueue "bot" "bot" (fun u => u) 3 [("c", (10 : Int))] ⟨"c", "D"⟩
     [⟨"alice", "hi", 11⟩] 10 (by decide)
     ("c", "hi", "alice", (11 : Int)) (by decide)⟩

/-- C9: in a non-DM channel every enqueued event's text contains the bot's
mention token — a post lacking it is never enqueued — and in a DM channel any
fetched post that passes the author, boot and dedup filters is enqueued
without requiring a mention. -/
theorem mention_gate (bot_user_id bot_username : String)
    (username_of : String → String) (boot_time : Int) (dedup : TimeMap)
    (channel : Channel) (fetched : List Post) :
    (channel.type ≠ "D" →
      ∀ e ∈ process_posts bot_user_id bot_username username_of boot_time dedup
        channel fetched,
        bot_is_mentioned e.2.1 bot_username = true) ∧
    (channel.type = "D" →
      ∀ post ∈ fetched, post.user_id ≠ bot_user_id →
        ¬ post.create_at < boot_time →
        dedup_blocks dedup channel.id post.create_at = false →
        (channel.id, post.message, username_of post.user_id, post.create_at) ∈
          process_posts bot_user_id bot_username username_of boot_time dedup
            channel fetched) := by
  constructor
  · intro hD e he
    obtain ⟨post, _, hdec⟩ := mem_process_posts he
    obtain ⟨heq, _, _, _, hm⟩ := enqueue_decision_eq_some hdec
    rw [heq]
    exact hm hD
  · intro hD post hmem h1 h2 h3
    apply List.mem_filterMap.mpr
    refine ⟨post, List.mem_reverse.mpr hmem, ?_⟩
    simp [enqueue_decision, h1, h2, h3, hD]

/-- Witness for C9: in the non-DM channel "c", the only enqueued event of a
concrete history carries the mention token; in the DM channel "d" a concrete
unmentioned post passing the other filters is enqueued. -/
theorem mention_gate_witness :
    bot_is_mentioned ("c", "@bot hi", "alice", (7 : Int)).2.1 "bot" = true ∧
    ("d", "hi", "alice", (7 : Int)) ∈
      process_posts "bot" "bot" (fun u => u) 3 [] ⟨"d", "D"⟩
        [⟨"alice", "hi", 7⟩] :=
  ⟨(mention_gate "bot" "bot" (fun u => u) 3 [] ⟨"c", "O"⟩
      [⟨"alice", "@bot hi", 7⟩]).1 (by decide)
      ("c", "@bot hi", "alice", (7 : Int)) (by decide),
   (mention_gate "bot" "bot" (fun u => u) 3 [] ⟨"d", "D"⟩
      [⟨"alice", "hi", 7⟩]).2 rfl ⟨"alice", "hi", 7⟩ (by decide) (by decide)
      (by decide) (by decide)⟩

/-- C6: per-channel FIFO — when the gateway returns the channel history
newest-first (pairwise non-increasing timestamps), the filter-and-enqueue pass
emits events in non-decreasing timestamp order, so of two enqueued events the
strictly older one occupies the strictly earlier queue position. -/
theorem per_channel_fifo (bot_user_id bot_username : String)
    (username_of : String → String) (boot_time : Int) (dedup : TimeMap)
    (channel : Channel) (fetched : List Post)
    (hnf : List.Pairwise (fun p q : Post => q.create_at ≤ p.create_at) fetched) :
    ∀ i j : Fin (process_posts bot_user_id bot_username username_of boot_time
        dedup channel fetched).length,
      ((process_posts bot_user_id bot_username username_of boot_time dedup
        channel fetched).get i).2.2.2 <
      ((process_posts bot_user_id bot_username username_of boot_time dedup
        channel fetched).get j).2.2.2 →
      (i : Nat) < (j : Nat) := by
  have hrev : List.Pairwise (fun p q : Post => p.create_at ≤ q.create_at)
      fetched.reverse := List.pairwise_reverse.mpr hnf
  have hout : List.Pairwise (fun e1 e2 : QueueEvent => e1.2.2.2 ≤ e2.2.2.2)
      (process_posts bot_user_id bot_username username_of boot_time dedup
        channel fetched) := by
    unfold process_posts
    refine List.Pairwise.filterMap _ ?_ hrev
    intro a a' hle b hb b' hb'
    obtain ⟨hea, _, _, _, _⟩ := enqueue_decision_eq_some hb
    obtain ⟨hea', _, _, _, _⟩ := enqueue_decision_eq_some hb'
    subst hea
    subst hea'
    show a.create_at ≤ a'.create_at
    exact hle
  intro i j hlt
  by_contra hij
  have hji : (j : Nat) ≤ (i : Nat) := Nat.le_of_not_lt hij
  rcases Nat.eq_or_lt_of_le hji with heq | hlt2
  · have hij2 : i = j := Fin.ext heq.symm
    rw [hij2] at hlt
    exact lt_irrefl _ hlt
  · have hle2 := List.pairwise_iff_get.mp hout j i hlt2
    omega

/-- Witness for C6: a concrete newest-first history of two mentioned posts
(timestamps 9 then 4) satisfies the ordering hypothesis, and the enqueued
events of that history are in non-decreasing timestamp positions. -/
theorem per_channel_fifo_witness :
    List.Pairwise (fun p q : Post => q.create_at ≤ p.create_at)
      [⟨"alice", "@bot b", 9⟩, ⟨"alice", "@bot a", 4⟩] ∧
    ∀ i j : Fin (process_posts "bot" "bot" (fun u => u) 0 [] ⟨"c", "O"⟩
        [⟨"alice", "@bot b", 9⟩, ⟨"alice", "@bot a", 4⟩]).length,
      ((process_posts "bot" "bot" (fun u => u) 0 [] ⟨"c", "O"⟩
        [⟨"alice", "@bot b", 9⟩, ⟨"alice", "@bot a", 4⟩]).get i).2.2.2 <
      ((process_posts "bot" "bot" (fun u => u) 0 [] ⟨"c", "O"⟩
        [⟨"alice", "@bot b", 9⟩, ⟨"alice", "@bot a", 4⟩]).get j).2.2.2 →
      (i : Nat) < (j : Nat) :=
  ⟨by decide,
   per_channel_fifo "bot" "bot" (fun u => u) 0 [] ⟨"c", "O"⟩
     [⟨"alice", "@bot b", 9⟩, ⟨"alice", "@bot a", 4⟩] (by decide)⟩

/-- C2 counterexample: with two channels where the first channel's fetch
raises and the second holds an enqueueable mentioned post, the poll cycle over
both channels enqueues nothing, while the same cycle over the second channel
alone enqueues its post — so an error on one channel does prevent the
remaining channels from being polled in that cycle. -/
theorem poll_cycle_abort_cx :
    (poll_cycle "bot" "bot" (fun u => u) 0
      (fun cid _ => if cid = "ch1" then none else some [⟨"alice", "@bot hi", 50⟩])
      100 ⟨[], [], []⟩ [⟨"ch1", "O"⟩, ⟨"ch2", "O"⟩]).message_queue = [] ∧
    (poll_cycle "bot" "bot" (fun u => u) 0
      (fun cid _ => if cid = "ch1" then none else some [⟨"alice", "@bot hi", 50⟩])
      100 ⟨[], [], []⟩ [⟨"ch2", "O"⟩]).message_queue =
      [("ch2", "@bot hi", "alice", 50)] := by
  constructor
  · decide
  · decide

/-- C2 (amended): any error during a channel's fetch is caught at the level of
the whole poll cycle, so the poller survives into the next cycle, but the
fetch-filter-enqueue step is skipped for every channel after the failing one
in that same cycle — the cycle's result is exactly the state left by the
failing channel. -/
theorem poll_cycle_fetch_error_skips_rest (bot_user_id bot_username : String)
    (username_of : String → String) (boot_time : Int)
    (fetch : String → Int → Option (List Post)) (now : Int)
    (s : PollerState) (c : Channel) (rest : List Channel)
    (hfail : ∀ since, fetch c.id since = none) :
    poll_cycle bot_user_id bot_username username_of boot_time fetch now s
      (c :: rest) =
    (poll_channel bot_user_id bot_username username_of boot_time fetch now
      s c).1 := by
  simp only [poll_cycle, poll_channel, hfail]

/-- Witness for C2 (amended): with a fetch that always raises, the cycle over
two channels stops at the first one. -/
theorem poll_cycle_fetch_error_skips_rest_witness :
    poll_cycle "bot" "bot" (fun u => u) 0 (fun _ _ => none) 100 ⟨[], [], []⟩
      [⟨"ch1", "O"⟩, ⟨"ch2", "O"⟩] =
    (poll_channel "bot" "bot" (fun u => u) 0 (fun _ _ => none) 100 ⟨[], [], []⟩
      ⟨"ch1", "O"⟩).1 :=
  poll_cycle_fetch_error_skips_rest "bot" "bot" (fun u => u) 0 (fun _ _ => none)
    100 ⟨[], [], []⟩ ⟨"ch1", "O"⟩ [⟨"ch2", "O"⟩] (fun _ => rfl)

/-- C3 counterexample: for a channel with existing poll cursor 5 whose fetch
raises, the cycle leaves the cursor at 5 instead of setting it to the current
time 100 — the cursor is not advanced "regardless of outcome". -/
theorem poll_cursor_error_cx :
    list_find ((poll_channel "bot" "bot" (fun u => u) 0 (fun _ _ => none) 100
      ⟨[], [("ch", (5 : Int))], []⟩ ⟨"ch", "O"⟩).1.last_poll_time) "ch" =
      some (5 : Int) ∧ (5 : Int) ≠ 100 := by
  constructor
  · decide
  · decide

/-- C3 (amended): when a channel's fetch succeeds, its poll cursor is set to
the current time at the end of the channel's cycle whether or not any post
survived filtering; but when the fetch raises, the previously stored cursor is
left unchanged. -/
theorem poll_cursor_advance (bot_user_id bot_username : String)
    (username_of : String → String) (boot_time : Int)
    (fetch : String → Int → Option (List Post)) (now : Int)
    (s : PollerState) (c : Channel) :
    ((∀ since, fetch c.id since ≠ none) →
      list_find ((poll_channel bot_user_id bot_username username_of boot_time
        fetch now s c).1.last_poll_time) c.id = some now) ∧
    (∀ t0, list_find s.last_poll_time c.id = some t0 →
      (∀ since, fetch c.id since = none) →
      list_find ((poll_channel bot_user_id bot_username username_of boot_time
        fetch now s c).1.last_poll_time) c.id = some t0) := by
  constructor
  · intro hok
    simp only [poll_channel]
    split
    · next hx => exact absurd hx (hok _)
    · next posts hx => simp [list_find_set_self]
  · intro t0 h0 hfail
    simp only [poll_channel, h0, Option.getD_some, hfail]

/-- Witness for C3 (amended): a successful empty fetch advances the cursor of
a fresh channel to 100; a raising fetch leaves a stored cursor at 5. -/
theorem poll_cursor_advance_witness :
    list_find ((poll_channel "bot" "bot" (fun u => u) 0 (fun _ _ => some []) 100
      ⟨[], [], []⟩ ⟨"ch", "O"⟩).1.last_poll_time) "ch" = some (100 : Int) ∧
    list_find ((poll_channel "bot" "bot" (fun u => u) 0 (fun _ _ => none) 100
      ⟨[], [("ch", (5 : Int))], []⟩ ⟨"ch", "O"⟩).1.last_poll_time) "ch" =
      some (5 : Int) :=
  ⟨(poll_cursor_advance "bot" "bot" (fun u => u) 0 (fun _ _ => some []) 100
      ⟨[], [], []⟩ ⟨"ch", "O"⟩).1 (fun _ => by decide),
   (poll_cursor_advance "bot" "bot" (fun u => u) 0 (fun _ _ => none) 100
      ⟨[], [("ch", (5 : Int))], []⟩ ⟨"ch", "O"⟩).2 5 (by decide) (fun _ => rfl)⟩
